import Mathlib

/-
Verification of the flipflag persistence plugin: a shallow embedding of
the persistence interception layer (with-persistence.ts) and its storage
adapters (memory, localStorage, cookie), with theorems checking the
specified behaviour.

Timestamps are modelled as natural numbers (milliseconds, as produced by
Date.now()).  A JavaScript absent (`undefined`) field is an `Option`'s
`none`; JavaScript truthiness of a numeric field means "present and
non-zero".  Code that can throw is modelled with `Except`; the try/catch
blocks of the source become pattern matches on the `Except` value.
-/

namespace FlipFlagPersist

/-- The persisted record shape from types.ts: `value`, `persistedAt`,
and an optional `expiresAt`. -/
structure PersistedFlagEntry where
  value : Bool
  persistedAt : Nat
  expiresAt : Option Nat
deriving Repr, DecidableEq

/-- JavaScript truthiness of the optional `expiresAt` field:
absent (`undefined`) and `0` are both falsy. -/
def truthyExpiry : Option Nat → Bool
  | none => false
  | some e => e != 0

/-- The adapters' TTL check `entry.expiresAt && Date.now() > entry.expiresAt`:
expired iff the field is truthy and now is STRICTLY greater than it. -/
def isExpired (expiresAt : Option Nat) (now : Nat) : Bool :=
  match expiresAt with
  | none => false
  | some e => e != 0 && now > e

/-- The interceptor's validity check `!x.expiresAt || Date.now() < x.expiresAt`
used in restoreFlag and the init pre-load: valid iff the field is falsy or
now is strictly below it. -/
def isValidStrict (expiresAt : Option Nat) (now : Nat) : Bool :=
  match expiresAt with
  | none => true
  | some e => e == 0 || now < e

/-! ### Memory adapter (adapters/memory.ts) -/

/-- The memory adapter's backing `Map<string, PersistedFlagEntry>`. -/
def MemStore : Type := String → Option PersistedFlagEntry

/-- memoryAdapter.get: look the key up; if absent return undefined; if the
entry is expired (truthiness check) delete the slot and return undefined;
otherwise return the entry.  Returns the result and the updated store. -/
def memoryGet (s : MemStore) (now : Nat) (key : String) :
    Option PersistedFlagEntry × MemStore :=
  match s key with
  | none => (none, s)
  | some entry =>
    if isExpired entry.expiresAt now then
      (none, fun k => if k = key then none else s k)
    else
      (some entry, s)

/-- memoryAdapter.set: unconditionally store the entry under the key. -/
def memorySet (s : MemStore) (key : String) (e : PersistedFlagEntry) : MemStore :=
  fun k => if k = key then some e else s k

/-! ### Event log: observer callbacks, console warnings and adapter calls -/

/-- Observable effects of a persistence operation, in order of occurrence:
the onPersist / onRestore / onError callbacks, a console.warn diagnostic,
and the interceptor invoking the adapter's get. -/
inductive Event where
  | persistCb (flagName : String) (value : Bool)
  | restoreCb (flagName : String) (value : Bool)
  | errorCb (msg : String)
  | consoleWarn (msg : String)
  | adapterGet (key : String)
deriving Repr, DecidableEq

/-! ### Serialization codec (JSON.stringify / JSON.parse of an entry)

JSON.stringify of a `PersistedFlagEntry` object literal produces
`\x7b"value":B,"persistedAt":N\x7d` or
`\x7b"value":B,"persistedAt":N,"expiresAt":M\x7d`, with the numbers in
decimal.  `parseEntry` models `JSON.parse(raw) as PersistedFlagEntry` for
the payloads this development concerns: canonical serializations parse
back to their entry, and every other payload is treated as a parse
failure, modelling an input on which JSON.parse throws. -/

/-- Little-endian decimal digit characters of `n`, with enough fuel. -/
def digitsRevAux : Nat → Nat → List Char
  | 0, _ => []
  | fuel+1, n =>
    if n = 0 then []
    else Nat.digitChar (n % 10) :: digitsRevAux fuel (n / 10)

/-- Decimal string representation of a natural number. -/
def natRepr (n : Nat) : String :=
  if n = 0 then "0" else ((digitsRevAux (n + 1) n).reverse).asString

/-- The fixed leading part of a serialized entry, up to the digits of
`persistedAt`. -/
def jsonHead (v : Bool) : String :=
  if v then "\x7b\"value\":true,\"persistedAt\":"
  else "\x7b\"value\":false,\"persistedAt\":"

/-- JSON.stringify of an entry (key order follows the object literal:
value, persistedAt, expiresAt; an absent expiresAt is omitted). -/
def serializeEntry (e : PersistedFlagEntry) : String :=
  match e.expiresAt with
  | none => jsonHead e.value ++ natRepr e.persistedAt ++ "\x7d"
  | some x =>
    jsonHead e.value ++ natRepr e.persistedAt ++ ",\"expiresAt\":" ++ natRepr x ++ "\x7d"

/-- Strip an expected literal from the front of a character list. -/
def stripLeadL : List Char → List Char → Option (List Char)
  | [], s => some s
  | _, [] => none
  | p :: ps, c :: cs => if c = p then stripLeadL ps cs else none

/-- Split a leading run of decimal digit characters from the rest. -/
def takeDigits : List Char → List Char × List Char
  | [] => ([], [])
  | c :: cs =>
    if c.isDigit then
      let r := takeDigits cs
      (c :: r.1, r.2)
    else ([], c :: cs)

/-- Value of a digit-character list read as a decimal number. -/
def digitsToNat (ds : List Char) : Nat :=
  ds.foldl (fun n c => n * 10 + (c.toNat - 48)) 0

/-- Parse a canonical decimal numeral: nonempty, and no leading zero
except for "0" itself. -/
def parseNatL (ds : List Char) : Option Nat :=
  match ds with
  | [] => none
  | [c] => some (c.toNat - 48)
  | c :: _ :: _ => if c = '0' then none else some (digitsToNat ds)

/-- Parse the part of a serialized entry after the fixed `"value"` head:
the `persistedAt` digits, then either the closing brace or the
`"expiresAt"` field and the closing brace. -/
def parseAfterVal (v : Bool) (rest : List Char) : Option PersistedFlagEntry :=
  let p := takeDigits rest
  match parseNatL p.1 with
  | none => none
  | some n =>
    if p.2 = [ '\x7d' ] then some ⟨v, n, none⟩
    else
      match stripLeadL ",\"expiresAt\":".data p.2 with
      | none => none
      | some r2 =>
        let q := takeDigits r2
        match parseNatL q.1 with
        | none => none
        | some m => if q.2 = [ '\x7d' ] then some ⟨v, n, some m⟩ else none

/-- Parse a character list as a serialized entry. -/
def parseEntryL (cs : List Char) : Option PersistedFlagEntry :=
  match stripLeadL "\x7b\"value\":true,\"persistedAt\":".data cs with
  | some rest => parseAfterVal true rest
  | none =>
    match stripLeadL "\x7b\"value\":false,\"persistedAt\":".data cs with
    | some rest => parseAfterVal false rest
    | none => none

/-- Parse a stored payload as an entry (the model of
`JSON.parse(raw) as PersistedFlagEntry`, none = JSON.parse throws). -/
def parseEntry (s : String) : Option PersistedFlagEntry :=
  parseEntryL s.data

/-! ### localStorage adapter (adapters/localStorage.ts)

The backing store maps keys to raw serialized strings; `avail` models the
result of the `isAvailable()` probe (constant for one environment). -/

structure LsState where
  avail : Bool
  slots : String → Option String

/-- localStorageAdapter.remove: no-op when unavailable, otherwise delete
the slot (removeItem failures are swallowed). -/
def localStorageRemove (st : LsState) (key : String) : LsState :=
  if st.avail then
    { st with slots := fun k => if k = key then none else st.slots k }
  else st

/-- localStorageAdapter.get: absent when unavailable; `if (!raw)` treats a
missing slot and the empty string alike as "no entry" (without touching
the slot); a payload on which parsing throws is removed and yields absent;
an expired entry (truthiness TTL check) is removed and yields absent;
otherwise the parsed entry is returned. -/
def localStorageGet (st : LsState) (now : Nat) (key : String) :
    Option PersistedFlagEntry × LsState :=
  if st.avail then
    match st.slots key with
    | none => (none, st)
    | some raw =>
      if raw = "" then (none, st)
      else
        match parseEntry raw with
        | none => (none, localStorageRemove st key)
        | some entry =>
          if isExpired entry.expiresAt now then (none, localStorageRemove st key)
          else (some entry, st)
  else (none, st)

/-! ### Cookie adapter (adapters/cookie.ts)

The jar maps cookie names to values; `avail` models the document probe.
encodeURIComponent/decodeURIComponent round-trip and are modelled as the
identity; the native cookie expiry attribute is not modelled (no claim
depends on it). -/

structure CookieState where
  avail : Bool
  jar : String → Option String

/-- getCookie: the regex `(^| )name=([^;]+)` finds no match for a missing
cookie, and also for an empty cookie value (the value needs at least one
character). -/
def getCookieRaw (st : CookieState) (key : String) : Option String :=
  match st.jar key with
  | none => none
  | some v => if v = "" then none else some v

/-- deleteCookie via cookieAdapter.remove: no-op when unavailable,
otherwise the cookie is expired away, i.e. the slot becomes absent. -/
def cookieRemove (st : CookieState) (key : String) : CookieState :=
  if st.avail then
    { st with jar := fun k => if k = key then none else st.jar k }
  else st

/-- cookieAdapter.get: same shape as localStorage get, over the jar. -/
def cookieGet (st : CookieState) (now : Nat) (key : String) :
    Option PersistedFlagEntry × CookieState :=
  if st.avail then
    match getCookieRaw st key with
    | none => (none, st)
    | some raw =>
      match parseEntry raw with
      | none => (none, cookieRemove st key)
      | some entry =>
        if isExpired entry.expiresAt now then (none, cookieRemove st key)
        else (some entry, st)
  else (none, st)

/-- The console.warn text emitted for an oversized cookie payload. -/
def oversizeMsg (key : String) : String :=
  "[FlipFlag Persist] Cookie data for \"" ++ key ++
    "\" exceeds 4000 bytes. Consider using localStorage instead."

/-- cookieAdapter.set: no-op when unavailable; a serialized payload longer
than 4000 emits a console.warn diagnostic and writes nothing; otherwise
the serialized entry is written under the key. -/
def cookieSet (st : CookieState) (key : String) (entry : PersistedFlagEntry) :
    CookieState × List Event :=
  if st.avail then
    let serialized := serializeEntry entry
    if serialized.length > 4000 then
      (st, [Event.consoleWarn (oversizeMsg key)])
    else
      ({ st with jar := fun k => if k = key then some serialized else st.jar k }, [])
  else (st, [])

/-! ### Synchronous adapter interface, as seen by the interceptor

`get` may throw (modelled with `Except`) and may update the backing state
(expired-slot deletion).  `set` may throw, updates the state, and may emit
console warnings. -/

structure SyncAdapter (σ : Type) where
  get : Nat → String → σ → Except String (Option PersistedFlagEntry) × σ
  set : Nat → String → PersistedFlagEntry → σ → Except String Unit × σ × List Event

/-- The memory adapter packaged behind the interceptor-facing interface:
its get and set never throw. -/
def memAdapter : SyncAdapter MemStore where
  get := fun now key s =>
    let r := memoryGet s now key
    (Except.ok r.1, r.2)
  set := fun _ key e s => (Except.ok (), memorySet s key e, [])

/-- The cookie adapter packaged behind the interceptor-facing interface:
its get and set catch internally and never throw. -/
def cookieSyncAdapter : SyncAdapter CookieState where
  get := fun now key st =>
    let r := cookieGet st now key
    (Except.ok r.1, r.2)
  set := fun _ key e st =>
    let r := cookieSet st key e
    (Except.ok (), r.1, r.2)

/-- An adapter whose get and set always throw, for exercising the
interceptor's catch paths. -/
def throwingAdapter (msg : String) : SyncAdapter Unit where
  get := fun _ _ s => (Except.error msg, s)
  set := fun _ _ _ s => (Except.error msg, s, [])

/-! ### Persistence interceptor (with-persistence.ts) -/

/-- persistFlag: build the fresh entry
`\x7bvalue, persistedAt: now, expiresAt: now + ttlMs\x7d`, call adapter.set,
then (synchronous adapter) invoke onPersist, or onError if set threw. -/
def persistFlag {σ : Type} (A : SyncAdapter σ) (key : String) (value : Bool)
    (ttlMs : Nat) (flagName : String) (now : Nat) (s : σ) : σ × List Event :=
  let entry : PersistedFlagEntry := ⟨value, now, some (now + ttlMs)⟩
  match A.set now key entry s with
  | (Except.ok _, s', evs) => (s', evs ++ [Event.persistCb flagName value])
  | (Except.error m, s', evs) => (s', evs ++ [Event.errorCb m])

/-- The pre-warmed shadow cache, `flagCache : Map<string, PersistedFlagEntry>`. -/
def FlagCache : Type := String → Option PersistedFlagEntry

/-- The shadow-cache lookup at the top of restoreFlag:
`flagCache.get(storageKey)` followed by the strict validity check. -/
def cacheHit (cache : FlagCache) (key : String) (now : Nat) :
    Option PersistedFlagEntry :=
  match cache key with
  | none => none
  | some c => if isValidStrict c.expiresAt now then some c else none

/-- restoreFlag: serve a valid shadow-cache entry first (invoking onRestore);
otherwise call adapter.get — a valid synchronous result is served via
onRestore, anything else yields false, and a thrown get is routed to
onError and yields false. -/
def restoreFlag {σ : Type} (A : SyncAdapter σ) (key : String) (flagName : String)
    (now : Nat) (cache : FlagCache) (s : σ) : Bool × σ × List Event :=
  match cacheHit cache key now with
  | some c => (c.value, s, [Event.restoreCb flagName c.value])
  | none =>
    match A.get now key s with
    | (Except.ok r, s') =>
      match r with
      | some entry =>
        if isValidStrict entry.expiresAt now then
          (entry.value, s', [Event.adapterGet key, Event.restoreCb flagName entry.value])
        else
          (false, s', [Event.adapterGet key])
      | none => (false, s', [Event.adapterGet key])
    | (Except.error m, s') =>
      (false, s', [Event.adapterGet key, Event.errorCb m])

/-- Outcome of calling the wrapped evaluator's isEnabled: a boolean, or a
thrown exception. -/
inductive EvalResult where
  | ok (b : Bool)
  | thrown
deriving Repr, DecidableEq

/-- The wrapped object's isEnabled (the interceptor's read path): compute
the storage key, try the evaluator; on success persist and return the
value, on a thrown evaluation fall back to restoreFlag.  The shadow cache
is never written on this path. -/
def isEnabledRead {σ : Type} (A : SyncAdapter σ) (pfx : String) (ttlMs : Nat)
    (flagName : String) (ev : EvalResult) (now : Nat) (cache : FlagCache)
    (s : σ) : Bool × σ × List Event :=
  let key := pfx ++ flagName
  match ev with
  | EvalResult.ok v =>
    let r := persistFlag A key v ttlMs flagName now s
    (v, r.1, r.2)
  | EvalResult.thrown => restoreFlag A key flagName now cache s

/-- Characterizes an adapter get outcome that cannot serve a restoration:
a thrown get, an absent entry, or an entry failing the strict validity
check. -/
def getYieldsNoValid (r : Except String (Option PersistedFlagEntry)) (now : Nat) : Bool :=
  match r with
  | Except.error _ => true
  | Except.ok none => true
  | Except.ok (some e) => !(isValidStrict e.expiresAt now)

/-! ### Length bounds for serialized entries -/

/-- A number with at least `k + 1` decimal digits yields at least `k + 1`
digit characters. -/
lemma digitsRevAux_length_ge (fuel : Nat) :
    ∀ n k : Nat, 10 ^ k ≤ n → n < fuel → k + 1 ≤ (digitsRevAux fuel n).length := by
  induction fuel with
  | zero => intro n k _ h; omega
  | succ f ih =>
    intro n k hk hf
    have h1 : 1 ≤ 10 ^ k := Nat.one_le_pow k 10 (by norm_num)
    have hn : ¬ n = 0 := by omega
    simp only [digitsRevAux, if_neg hn, List.length_cons]
    cases k with
    | zero => omega
    | succ k' =>
      have hdiv : 10 ^ k' ≤ n / 10 := by
        rw [Nat.le_div_iff_mul_le (by norm_num)]
        calc 10 ^ k' * 10 = 10 ^ (k' + 1) := by ring
        _ ≤ n := hk
      have hlt : n / 10 < n := Nat.div_lt_self (Nat.pos_of_ne_zero hn) (by norm_num)
      have := ih (n / 10) k' hdiv (by omega)
      omega

/-- Decimal-representation length lower bound: `10 ^ k ≤ n` forces at
least `k + 1` characters. -/
lemma natRepr_length_ge (n k : Nat) (hk : 10 ^ k ≤ n) : k + 1 ≤ (natRepr n).length := by
  have h1 : 1 ≤ 10 ^ k := Nat.one_le_pow k 10 (by norm_num)
  have hn : ¬ n = 0 := by omega
  have := digitsRevAux_length_ge (n + 1) n k hk (by omega)
  simpa [natRepr, if_neg hn, List.asString, String.length] using this

/-- The serialized form is at least as long as the decimal digits of
`persistedAt`. -/
lemma serializeEntry_length_ge (e : PersistedFlagEntry) :
    (natRepr e.persistedAt).length ≤ (serializeEntry e).length := by
  cases h : e.expiresAt with
  | none => simp [serializeEntry, h, String.length_append]; omega
  | some x => simp [serializeEntry, h, String.length_append]; omega

/-! ## Claim theorems -/

/-- Counterexample to claim C1: the shadow cache, once pre-warmed by the
init phase, takes precedence over storage in restoreFlag, and the
success-path persistFlag never updates it — so with a valid cached entry
holding false for "beta", a successful read of true at t = 100 persists
true to storage, yet the read at t = 600 (evaluator throwing, elapsed
500 < TTL 1000) returns the stale cached false, not the just-persisted
value. -/
theorem C1_stale_cache_cex :
    (isEnabledRead memAdapter "flipflag:" 1000 "beta" EvalResult.thrown 600
      (fun k => if k = "flipflag:beta" then some ⟨false, 0, some 10000⟩ else none)
      (isEnabledRead memAdapter "flipflag:" 1000 "beta" (EvalResult.ok true) 100
        (fun k => if k = "flipflag:beta" then some ⟨false, 0, some 10000⟩ else none)
        (fun _ => none)).2.1).1 = false := by decide

/-- Claim C1 as amended: for every flag name and TTL, a read that
succeeds through the wrapped evaluator (persisting through the
synchronous, available memory adapter at time t1) followed by a read of
the same flag whose evaluation throws at time t2, with elapsed time
t2 - t1 strictly below the TTL, returns the value persisted by the first
read — PROVIDED the shadow cache serves no valid entry for the flag at
the second read (as when the init pre-warm phase never ran); otherwise
the cached value takes precedence. -/
theorem C1_persist_then_restore (pfx flagName : String) (ttlMs : Nat) (v : Bool)
    (t1 t2 : Nat) (s : MemStore) (cache : FlagCache)
    (hcache : cacheHit cache (pfx ++ flagName) t2 = none)
    (horder : t1 ≤ t2) (helapsed : t2 - t1 < ttlMs) :
    (isEnabledRead memAdapter pfx ttlMs flagName EvalResult.thrown t2 cache
      (isEnabledRead memAdapter pfx ttlMs flagName (EvalResult.ok v) t1 cache s).2.1).1 = v := by
  have hlt : t2 < t1 + ttlMs := by omega
  have h1 : (decide (t1 + ttlMs < t2)) = false := decide_eq_false (by omega)
  have h2 : (decide (t2 < t1 + ttlMs)) = true := decide_eq_true hlt
  simp [isEnabledRead, persistFlag, memAdapter, memorySet, restoreFlag, hcache,
    memoryGet, isExpired, isValidStrict, h1, h2]

/-- Witness for the amended C1 at prefix "flipflag:", flag "beta", TTL
1000, persist at t = 100 and restore at t = 600 with an empty shadow
cache. -/
theorem C1_persist_then_restore_witness :
    (isEnabledRead memAdapter "flipflag:" 1000 "beta" EvalResult.thrown 600 (fun _ => none)
      (isEnabledRead memAdapter "flipflag:" 1000 "beta" (EvalResult.ok true) 100 (fun _ => none)
        (fun _ => none)).2.1).1 = true :=
  C1_persist_then_restore "flipflag:" "beta" 1000 true 100 600 (fun _ => none) (fun _ => none)
    rfl (by omega) (by omega)

/-- Counterexample to claim C2: an adapter get performed at a time
exactly equal to the entry's expiresAt returns the entry, not absent —
the adapters' TTL check expires an entry only when now is STRICTLY
greater than expiresAt. -/
theorem C2_exact_expiry_cex :
    (memoryGet (fun k => if k = "flipflag:beta" then some ⟨true, 0, some 100⟩ else none)
      100 "flipflag:beta").1 = some ⟨true, 0, some 100⟩ := by decide

/-- An entry survives the adapters' expiry check exactly when expiresAt
is absent, zero, or at least the current time. -/
lemma isExpired_eq_false_iff (o : Option Nat) (now : Nat) :
    isExpired o now = false ↔ (o = none ∨ ∃ x, o = some x ∧ (x = 0 ∨ now ≤ x)) := by
  cases o with
  | none => simp [isExpired]
  | some x =>
    simp [isExpired]
    omega

/-- Claim C2 as amended: a stored entry is returned by the adapter's get
iff its expiresAt is absent, zero, or now ≤ expiresAt — so at a time
exactly equal to expiresAt the entry is still returned (the strictly-less
validity rule holds only on the interceptor's restore and pre-load paths,
not in the adapters). -/
theorem C2_adapter_validity (s : MemStore) (key : String) (e : PersistedFlagEntry) (now : Nat)
    (h : s key = some e) :
    (memoryGet s now key).1 = some e ↔
      (e.expiresAt = none ∨ ∃ x, e.expiresAt = some x ∧ (x = 0 ∨ now ≤ x)) := by
  rw [← isExpired_eq_false_iff e.expiresAt now]
  cases hexp : isExpired e.expiresAt now with
  | true => simp [memoryGet, h, hexp]
  | false => simp [memoryGet, h, hexp]

/-- Witness for the amended C2: an entry with expiresAt = 100 is returned
at now = 42. -/
theorem C2_adapter_validity_witness :
    (memoryGet (fun k => if k = "k" then some ⟨true, 0, some 100⟩ else none) 42 "k").1
      = some ⟨true, 0, some 100⟩ :=
  (C2_adapter_validity (fun k => if k = "k" then some ⟨true, 0, some 100⟩ else none)
    "k" ⟨true, 0, some 100⟩ 42 (by decide)).mpr (Or.inr ⟨100, rfl, Or.inr (by omega)⟩)

/-- Claim C3: the wrapped isEnabled is total — for every evaluator
outcome (including a throw) and every adapter behaviour (including a
throwing get) it yields a boolean, and it yields false whenever no valid
cached value can be produced (shadow-cache miss and an adapter get that
throws, returns absent, or returns an invalid entry). -/
theorem C3_read_total {σ : Type} (A : SyncAdapter σ) (pfx : String) (ttlMs : Nat)
    (flagName : String) (ev : EvalResult) (now : Nat) (cache : FlagCache) (s : σ) :
    ((isEnabledRead A pfx ttlMs flagName ev now cache s).1 = true ∨
     (isEnabledRead A pfx ttlMs flagName ev now cache s).1 = false) ∧
    (ev = EvalResult.thrown →
     cacheHit cache (pfx ++ flagName) now = none →
     getYieldsNoValid (A.get now (pfx ++ flagName) s).1 now = true →
     (isEnabledRead A pfx ttlMs flagName ev now cache s).1 = false) := by
  constructor
  · exact Bool.eq_false_or_eq_true ((isEnabledRead A pfx ttlMs flagName ev now cache s).1)
  · intro hev hmiss hget
    subst hev
    simp only [isEnabledRead, restoreFlag, hmiss]
    rcases hA : A.get now (pfx ++ flagName) s with ⟨r, s2⟩
    rw [hA] at hget
    cases r with
    | error m => simp
    | ok o =>
      cases o with
      | none => simp
      | some entry =>
        simp only [getYieldsNoValid, Bool.not_eq_true'] at hget
        simp [hget]

/-- Witness for C3: both the evaluator and the adapter's get throw, and
the read still returns false. -/
theorem C3_read_total_witness :
    (isEnabledRead (throwingAdapter "boom") "flipflag:" 5 "beta" EvalResult.thrown 0
      (fun _ => none) ()).1 = false :=
  (C3_read_total (throwingAdapter "boom") "flipflag:" 5 "beta" EvalResult.thrown 0
    (fun _ => none) ()).2 rfl rfl rfl

/-- Counterexample to claim C4: when the cookie adapter silently no-ops
an oversized write (serialized payload over 4000 bytes), set returns
normally, so persistFlag still invokes onPersist — the events are the
console warning followed by the persist callback, with no onError — even
though nothing was written (the jar slot stays empty). -/
theorem C4_silent_noop_cex :
    (persistFlag cookieSyncAdapter "flipflag:big" true 7 "big" (10 ^ 4000)
        ⟨true, fun _ => none⟩).2 =
      [Event.consoleWarn (oversizeMsg "flipflag:big"), Event.persistCb "big" true] ∧
    (persistFlag cookieSyncAdapter "flipflag:big" true 7 "big" (10 ^ 4000)
        ⟨true, fun _ => none⟩).1.jar "flipflag:big" = none := by
  have h1 : 4000 + 1 ≤ (natRepr (10 ^ 4000)).length := natRepr_length_ge (10 ^ 4000) 4000 le_rfl
  have h2 : (natRepr (10 ^ 4000)).length ≤
      (serializeEntry ⟨true, 10 ^ 4000, some (10 ^ 4000 + 7)⟩).length :=
    serializeEntry_length_ge ⟨true, 10 ^ 4000, some (10 ^ 4000 + 7)⟩
  have hsize : 4000 < (serializeEntry
      (⟨true, 10 ^ 4000, some (10 ^ 4000 + 7)⟩ : PersistedFlagEntry)).length := by omega
  constructor <;>
    simp [persistFlag, cookieSyncAdapter, cookieSet, hsize]

/-- Claim C4 as amended: onPersist is invoked exactly when the adapter's
set returns without throwing, not when the value was actually written —
a silent no-op failure (oversized cookie payload) still triggers
onPersist, leaves the jar untouched, and does not invoke onError; only a
set that throws routes to onError without onPersist. -/
theorem C4_persist_callback (st : CookieState) (key flagName : String) (value : Bool)
    (ttlMs now : Nat) (havail : st.avail = true)
    (hsize : 4000 < (serializeEntry
      (⟨value, now, some (now + ttlMs)⟩ : PersistedFlagEntry)).length) :
    ((persistFlag cookieSyncAdapter key value ttlMs flagName now st).1.jar key = st.jar key) ∧
    ((persistFlag cookieSyncAdapter key value ttlMs flagName now st).2 =
      [Event.consoleWarn (oversizeMsg key), Event.persistCb flagName value]) ∧
    (∀ m, Event.errorCb m ∉ (persistFlag cookieSyncAdapter key value ttlMs flagName now st).2) ∧
    (∀ msg, Event.errorCb msg ∈ (persistFlag (throwingAdapter msg) key value ttlMs flagName now ()).2 ∧
      Event.persistCb flagName value ∉
        (persistFlag (throwingAdapter msg) key value ttlMs flagName now ()).2) := by
  have hset : persistFlag cookieSyncAdapter key value ttlMs flagName now st =
      (st, [Event.consoleWarn (oversizeMsg key), Event.persistCb flagName value]) := by
    simp [persistFlag, cookieSyncAdapter, cookieSet, havail, hsize]
  refine ⟨by rw [hset], by rw [hset], ?_, ?_⟩
  · intro m
    rw [hset]
    simp
  · intro msg
    constructor <;> simp [persistFlag, throwingAdapter]

/-- Witness for the amended C4: the oversized silent no-op leaves the jar
unchanged with no onError, while a throwing set produces onError. -/
theorem C4_persist_callback_witness :
    ((persistFlag cookieSyncAdapter "flipflag:big" true 7 "big" (10 ^ 4000)
        ⟨true, fun _ => none⟩).1.jar "flipflag:big" =
      (⟨true, fun _ => none⟩ : CookieState).jar "flipflag:big") ∧
    (Event.errorCb "boom" ∉ (persistFlag cookieSyncAdapter "flipflag:big" true 7 "big"
        (10 ^ 4000) ⟨true, fun _ => none⟩).2) ∧
    (Event.errorCb "boom" ∈ (persistFlag (throwingAdapter "boom") "flipflag:big" true 7 "big"
        (10 ^ 4000) ()).2) := by
  have h1 : 4000 + 1 ≤ (natRepr (10 ^ 4000)).length := natRepr_length_ge (10 ^ 4000) 4000 le_rfl
  have h2 : (natRepr (10 ^ 4000)).length ≤
      (serializeEntry ⟨true, 10 ^ 4000, some (10 ^ 4000 + 7)⟩).length :=
    serializeEntry_length_ge ⟨true, 10 ^ 4000, some (10 ^ 4000 + 7)⟩
  have hsize : 4000 < (serializeEntry
      (⟨true, 10 ^ 4000, some (10 ^ 4000 + 7)⟩ : PersistedFlagEntry)).length := by omega
  have h := C4_persist_callback ⟨true, fun _ => none⟩ "flipflag:big" "big" true 7 (10 ^ 4000)
    rfl hsize
  exact ⟨h.1, h.2.2.1 "boom", (h.2.2.2 "boom").1⟩

/-- Counterexample to claim C5: an entry whose expiresAt (zero) lies
strictly in the past at read time 5 is nevertheless returned by the
memory adapter's get and its slot survives — the truthiness expiry check
skips a zero expiresAt. -/
theorem C5_zero_expiry_cex :
    (memoryGet (fun k => if k = "k" then some ⟨true, 0, some 0⟩ else none) 5 "k").1
        = some ⟨true, 0, some 0⟩ ∧
    (memoryGet (fun k => if k = "k" then some ⟨true, 0, some 0⟩ else none) 5 "k").2 "k"
        = some ⟨true, 0, some 0⟩ := by decide

/-- Claim C5 as amended: for every entry whose expiresAt is NONZERO and
strictly in the past at read time, the memory adapter's get (and the
localStorage adapter's get, for an available store whose slot holds a
payload parsing to that entry) returns absent and deletes the backing
slot. -/
theorem C5_expired_get_removes (key : String) (e : PersistedFlagEntry) (x now : Nat)
    (hx : e.expiresAt = some x) (h0 : x ≠ 0) (hpast : x < now) :
    (∀ s : MemStore, s key = some e →
      (memoryGet s now key).1 = none ∧ (memoryGet s now key).2 key = none) ∧
    (∀ st : LsState, ∀ raw : String, st.avail = true → st.slots key = some raw →
      raw ≠ "" → parseEntry raw = some e →
      (localStorageGet st now key).1 = none ∧
      (localStorageGet st now key).2.slots key = none) := by
  have hexp : isExpired e.expiresAt now = true := by simp [isExpired, hx, h0, hpast]
  constructor
  · intro s hs
    simp [memoryGet, hs, hexp]
  · intro st raw havail hslot hraw hparse
    simp [localStorageGet, havail, hslot, hraw, hparse, hexp, localStorageRemove]

/-- Witness for the amended C5: an entry expiring at 10, read at 11, is
absent afterwards in both adapters. -/
theorem C5_expired_get_removes_witness :
    ((memoryGet (fun k => if k = "flipflag:beta" then some ⟨true, 0, some 10⟩ else none)
        11 "flipflag:beta").1 = none ∧
     (memoryGet (fun k => if k = "flipflag:beta" then some ⟨true, 0, some 10⟩ else none)
        11 "flipflag:beta").2 "flipflag:beta" = none) ∧
    ((localStorageGet ⟨true, fun k => if k = "flipflag:beta"
        then some "\x7b\"value\":true,\"persistedAt\":0,\"expiresAt\":10\x7d" else none⟩
        11 "flipflag:beta").1 = none ∧
     (localStorageGet ⟨true, fun k => if k = "flipflag:beta"
        then some "\x7b\"value\":true,\"persistedAt\":0,\"expiresAt\":10\x7d" else none⟩
        11 "flipflag:beta").2.slots "flipflag:beta" = none) := by
  have h := C5_expired_get_removes "flipflag:beta" ⟨true, 0, some 10⟩ 10 11 rfl
    (by decide) (by omega)
  exact ⟨h.1 _ (by decide),
    h.2 _ "\x7b\"value\":true,\"persistedAt\":0,\"expiresAt\":10\x7d" rfl
      (by decide) (by decide) (by decide)⟩

/-- Counterexample to claim C6: the empty string is a payload that fails
to parse as an entry, yet localStorage get returns absent WITHOUT
deleting the slot — a subsequent get still finds the stored payload —
because `if (!raw)` treats the falsy empty string as "not found" before
the parse-and-clear path is reached. -/
theorem C6_empty_payload_cex :
    parseEntry "" = none ∧
    (localStorageGet ⟨true, fun k => if k = "x" then some "" else none⟩ 5 "x").1 = none ∧
    (localStorageGet ⟨true, fun k => if k = "x" then some "" else none⟩ 5 "x").2.slots "x"
      = some "" := by decide

/-- Claim C6 as amended: for every NON-EMPTY payload on which parsing
throws, the localStorage and cookie adapters' get returns absent (no
exception propagates, by construction of the catch path) and deletes the
offending slot, so a subsequent get finds no stored payload. -/
theorem C6_corrupt_payload_cleared (key raw : String) (now : Nat)
    (hraw : raw ≠ "") (hparse : parseEntry raw = none) :
    (∀ st : LsState, st.avail = true → st.slots key = some raw →
      (localStorageGet st now key).1 = none ∧
      (localStorageGet st now key).2.slots key = none ∧
      (localStorageGet (localStorageGet st now key).2 now key).1 = none) ∧
    (∀ st : CookieState, st.avail = true → st.jar key = some raw →
      (cookieGet st now key).1 = none ∧ (cookieGet st now key).2.jar key = none) := by
  constructor
  · intro st havail hslot
    refine ⟨?_, ?_, ?_⟩ <;>
      simp [localStorageGet, havail, hslot, hraw, hparse, localStorageRemove]
  · intro st havail hjar
    constructor <;>
      simp [cookieGet, havail, getCookieRaw, hjar, hraw, hparse, cookieRemove]

/-- Witness for the amended C6 at the unparseable payload "corrupt". -/
theorem C6_corrupt_payload_cleared_witness :
    ((localStorageGet ⟨true, fun k => if k = "x" then some "corrupt" else none⟩ 5 "x").1
        = none ∧
     (localStorageGet ⟨true, fun k => if k = "x" then some "corrupt" else none⟩ 5 "x").2.slots
        "x" = none ∧
     (localStorageGet (localStorageGet ⟨true, fun k => if k = "x" then some "corrupt"
        else none⟩ 5 "x").2 5 "x").1 = none) ∧
    ((cookieGet ⟨true, fun k => if k = "x" then some "corrupt" else none⟩ 5 "x").1 = none ∧
     (cookieGet ⟨true, fun k => if k = "x" then some "corrupt" else none⟩ 5 "x").2.jar "x"
        = none) := by
  have h := C6_corrupt_payload_cleared "x" "corrupt" 5 (by decide) (by decide)
  exact ⟨h.1 _ rfl (by decide), h.2 _ rfl (by decide)⟩

/-- Claim C7: when the evaluator throws and no entry for the flag exists
in the shadow cache or in the adapter's storage, the read returns false
and the only observable effect is the adapter get call — onError is not
invoked (absence is not an error) and onRestore is not invoked. -/
theorem C7_no_entry_defaults_false (pfx flagName : String) (ttlMs now : Nat)
    (cache : FlagCache) (s : MemStore)
    (hcache : cache (pfx ++ flagName) = none) (hstore : s (pfx ++ flagName) = none) :
    isEnabledRead memAdapter pfx ttlMs flagName EvalResult.thrown now cache s
      = (false, s, [Event.adapterGet (pfx ++ flagName)]) := by
  simp [isEnabledRead, restoreFlag, cacheHit, hcache, memAdapter, memoryGet, hstore]

/-- Witness for C7 at flag "beta" with empty cache and empty storage. -/
theorem C7_no_entry_defaults_false_witness :
    isEnabledRead memAdapter "flipflag:" 1000 "beta" EvalResult.thrown 50 (fun _ => none)
      (fun _ => none)
      = (false, (fun _ => none : MemStore), [Event.adapterGet ("flipflag:" ++ "beta")]) :=
  C7_no_entry_defaults_false "flipflag:" "beta" 1000 50 (fun _ => none) (fun _ => none) rfl rfl

/-- Claim C8: when the shadow cache holds an entry for the flag that
passes the strict validity check (as loaded by the init pre-warm phase)
and the evaluator throws, the read returns the cached value, invokes
onRestore with (flagName, cachedValue), leaves the adapter state
untouched and never calls the adapter's get — for EVERY adapter,
including one whose get would throw. -/
theorem C8_shadow_cache_restore {σ : Type} (A : SyncAdapter σ) (pfx flagName : String)
    (ttlMs now : Nat) (cache : FlagCache) (s : σ) (e : PersistedFlagEntry)
    (hcache : cache (pfx ++ flagName) = some e)
    (hvalid : isValidStrict e.expiresAt now = true) :
    isEnabledRead A pfx ttlMs flagName EvalResult.thrown now cache s
      = (e.value, s, [Event.restoreCb flagName e.value]) := by
  simp [isEnabledRead, restoreFlag, cacheHit, hcache, hvalid]

/-- Witness for C8: a pre-warmed cache entry for "feature-x" expiring at
10 is served at time 5 even though the adapter's get throws. -/
theorem C8_shadow_cache_restore_witness :
    isEnabledRead (throwingAdapter "down") "flipflag:" 1000 "feature-x" EvalResult.thrown 5
      (fun k => if k = "flipflag:feature-x" then some ⟨true, 0, some 10⟩ else none) ()
      = (true, (), [Event.restoreCb "feature-x" true]) :=
  C8_shadow_cache_restore (throwingAdapter "down") "flipflag:" "feature-x" 1000 5
    (fun k => if k = "flipflag:feature-x" then some ⟨true, 0, some 10⟩ else none) ()
    ⟨true, 0, some 10⟩ (by decide) (by decide)

/-- Claim C9: when an entry serializes to more than 4000 bytes, the
cookie adapter's set writes nothing — the state is returned unchanged
with only the console.warn diagnostic — and, with nothing stored at the
key beforehand, a subsequent get for that key returns absent. -/
theorem C9_oversized_cookie_noop (st : CookieState) (key : String)
    (e : PersistedFlagEntry) (now : Nat)
    (havail : st.avail = true) (hsize : 4000 < (serializeEntry e).length)
    (hempty : st.jar key = none) :
    cookieSet st key e = (st, [Event.consoleWarn (oversizeMsg key)]) ∧
    (cookieGet (cookieSet st key e).1 now key).1 = none := by
  have h1 : cookieSet st key e = (st, [Event.consoleWarn (oversizeMsg key)]) := by
    simp [cookieSet, havail, hsize]
  refine ⟨h1, ?_⟩
  rw [h1]
  simp [cookieGet, havail, getCookieRaw, hempty]

/-- Witness for C9: an entry whose persistedAt has 4001 decimal digits
serializes past the limit; set is a warn-only no-op and get still finds
nothing. -/
theorem C9_oversized_cookie_noop_witness :
    cookieSet ⟨true, fun _ => none⟩ "flipflag:big" ⟨true, 10 ^ 4000, none⟩ =
      (⟨true, fun _ => none⟩, [Event.consoleWarn (oversizeMsg "flipflag:big")]) ∧
    (cookieGet (cookieSet ⟨true, fun _ => none⟩ "flipflag:big" ⟨true, 10 ^ 4000, none⟩).1
      0 "flipflag:big").1 = none := by
  have h1 : 4000 + 1 ≤ (natRepr (10 ^ 4000)).length := natRepr_length_ge (10 ^ 4000) 4000 le_rfl
  have h2 : (natRepr (10 ^ 4000)).length ≤
      (serializeEntry ⟨true, 10 ^ 4000, none⟩).length :=
    serializeEntry_length_ge ⟨true, 10 ^ 4000, none⟩
  exact C9_oversized_cookie_noop ⟨true, fun _ => none⟩ "flipflag:big" ⟨true, 10 ^ 4000, none⟩
    0 rfl (by omega) rfl

/-- Claim C10: an entry whose expiresAt is present but zero is treated as
having no expiry — for every current time the memory and localStorage
gets return it unchanged, and the interceptor's restoration path serves
its value both from the shadow cache and from a synchronous adapter
result, because every expiry check tests the truthiness of expiresAt. -/
theorem C10_zero_expiry_valid (now : Nat) (key flagName : String) (e : PersistedFlagEntry)
    (he : e.expiresAt = some 0) :
    (∀ s : MemStore, s key = some e → memoryGet s now key = (some e, s)) ∧
    (∀ st : LsState, ∀ raw, st.avail = true → st.slots key = some raw → raw ≠ "" →
      parseEntry raw = some e → localStorageGet st now key = (some e, st)) ∧
    (∀ cache : FlagCache, ∀ s : MemStore, cache key = some e →
      restoreFlag memAdapter key flagName now cache s
        = (e.value, s, [Event.restoreCb flagName e.value])) ∧
    (∀ cache : FlagCache, ∀ s : MemStore, cache key = none → s key = some e →
      restoreFlag memAdapter key flagName now cache s
        = (e.value, s, [Event.adapterGet key, Event.restoreCb flagName e.value])) := by
  have hexp : isExpired e.expiresAt now = false := by simp [isExpired, he]
  have hval : isValidStrict e.expiresAt now = true := by simp [isValidStrict, he]
  refine ⟨?_, ?_, ?_, ?_⟩
  · intro s hs
    simp [memoryGet, hs, hexp]
  · intro st raw havail hslot hraw hparse
    simp [localStorageGet, havail, hslot, hraw, hparse, hexp]
  · intro cache s hc
    simp [restoreFlag, cacheHit, hc, hval]
  · intro cache s hc hs
    simp [restoreFlag, cacheHit, hc, memAdapter, memoryGet, hs, hexp, hval]

/-- Witness for C10: an entry with expiresAt = 0 is served at time 999 by
both adapters and by both restoration paths. -/
theorem C10_zero_expiry_valid_witness :
    memoryGet (fun k => if k = "k" then some ⟨true, 3, some 0⟩ else none) 999 "k"
      = (some ⟨true, 3, some 0⟩,
         fun k => if k = "k" then some ⟨true, 3, some 0⟩ else none) ∧
    localStorageGet ⟨true, fun k => if k = "k"
        then some "\x7b\"value\":true,\"persistedAt\":3,\"expiresAt\":0\x7d" else none⟩ 999 "k"
      = (some ⟨true, 3, some 0⟩, ⟨true, fun k => if k = "k"
        then some "\x7b\"value\":true,\"persistedAt\":3,\"expiresAt\":0\x7d" else none⟩) ∧
    restoreFlag memAdapter "k" "beta" 999
      (fun k => if k = "k" then some ⟨true, 3, some 0⟩ else none) (fun _ => none)
      = (true, (fun _ => none : MemStore), [Event.restoreCb "beta" true]) := by
  have h := C10_zero_expiry_valid 999 "k" "beta" ⟨true, 3, some 0⟩ rfl
  exact ⟨h.1 _ (by decide),
    h.2.1 _ "\x7b\"value\":true,\"persistedAt\":3,\"expiresAt\":0\x7d" rfl
      (by decide) (by decide) (by decide),
    h.2.2.1 _ _ (by decide)⟩

end FlipFlagPersist
